import Mathlib

/-!
# Verification of `gpustack-runtime` (Docker deployer and NVIDIA detector)

Shallow embedding of the parts of `gpustack_runtime` that the verified
properties talk about:

* `src/gpustack_runtime/deployer/docker.py` — workload-state aggregation
  (`DockerWorkloadStatus.parse_state`), ephemeral volume/file creation,
  container parameterization (`_parameterize_container_execution`, the
  restart-policy projection of `_create_containers`), `create` validation and
  `delete`.
* `src/gpustack_runtime/detector/nvidia.py` — MIG enumeration of `detect`,
  `_get_arch_family`, the profile tables and
  `_get_compute_instance_memory_in_gib`.

Python `None` is modelled by `Option`, Python truthiness is made explicit
(`none`, the empty string, the empty list and `0` are falsy), raised
exceptions are modelled with `Except`, and Python machine floats are modelled
with exact rational arithmetic (`ℚ`); every theorem below that evaluates the
float code does so at inputs where all intermediate values are dyadic
rationals that binary64 represents exactly, so the rational model and the
float computation agree there.
-/

namespace GpustackRuntime

/-! ## §4.E state aggregation: `DockerWorkloadStatus.parse_state`

The view a Docker container object offers to `parse_state`
(docker.py lines 170-221) and to `_has_restart_policy` (lines 1227-1232):
the `runtime.gpustack.ai/component` label, `c.status`,
`c.attrs["State"]["ExitCode"]` and
`c.attrs["HostConfig"]["RestartPolicy"]["Name"]` (defaulting to `"no"`).
-/

structure DContainer where
  /-- `c.labels.get("runtime.gpustack.ai/component")`. -/
  component : Option String
  /-- `c.status`, e.g. `"created"`, `"running"`, `"exited"`, `"dead"`, `"paused"`. -/
  status : String
  /-- `c.attrs["State"]["ExitCode"]`. -/
  exitCode : Int
  /-- `c.attrs["HostConfig"].get("RestartPolicy", {}).get("Name", "no")`. -/
  restartPolicyName : String
  deriving Repr, DecidableEq

/-- `_has_restart_policy` (docker.py lines 1227-1232). -/
def has_restart_policy (c : DContainer) : Bool :=
  c.restartPolicyName != "no"

/-- `WorkloadStatusStateEnum` (deployer/__types__.py lines 682-721). -/
inductive WorkloadStatusStateEnum where
  | unknown
  | pending
  | initializing
  | running
  | unhealthy
  | failed
  deriving Repr, DecidableEq

/-- The inner `for ci in d_init_containers` loop of `parse_state`
(docker.py lines 202-210): scans the init containers in order; every branch
is an early `return` from the whole function; falling off the loop yields
`INITIALIZING` (line 211). -/
def parse_state_scan_inits : List DContainer → WorkloadStatusStateEnum
  | [] => .initializing
  | ci :: rest =>
    if ci.status = "created" then .pending
    else if ci.status = "dead" ∨ (ci.status = "exited" ∧ ci.exitCode ≠ 0) then .failed
    else if ci.status ≠ "exited" ∧ ¬has_restart_policy ci then .initializing
    else parse_state_scan_inits rest

/-- The outer `for cr in d_run_containers` loop of `parse_state`
(docker.py lines 198-221): scans the run containers in order; falling off the
loop yields `RUNNING`. -/
def parse_state_scan_runs (inits : List DContainer) :
    List DContainer → WorkloadStatusStateEnum
  | [] => .running
  | cr :: rest =>
    if cr.status = "created" then
      if inits.isEmpty then .pending else parse_state_scan_inits inits
    else if cr.status = "dead" ∨ (cr.status = "exited" ∧ cr.exitCode ≠ 0) then
      if ¬has_restart_policy cr then .failed else .unhealthy
    else if cr.status ≠ "running" ∧ ¬has_restart_policy cr then .pending
    else parse_state_scan_runs inits rest

/-- `DockerWorkloadStatus.parse_state` (docker.py lines 170-221): partition
the containers by the `component` label into init and run lists (preserving
order) and fold the state machine over them. -/
def parse_state (d_containers : List DContainer) : WorkloadStatusStateEnum :=
  let d_init_containers := d_containers.filter (fun c => c.component == some "init")
  let d_run_containers := d_containers.filter (fun c => c.component == some "run")
  if d_run_containers.isEmpty then
    if d_init_containers.isEmpty then .unknown else .pending
  else
    parse_state_scan_runs d_init_containers d_run_containers

end GpustackRuntime

namespace GpustackRuntime

/-! Restatement of the §4.E pseudocode in verdict-combinator style, used to
express the amended C1: each container either triggers a verdict or passes,
and the first triggered verdict in scan order wins. -/

/-- The verdict a single init container triggers inside the run-`created`
branch, `none` when it lets the scan continue. -/
def initVerdict (ci : DContainer) : Option WorkloadStatusStateEnum :=
  if ci.status = "created" then some .pending
  else if ci.status = "dead" ∨ (ci.status = "exited" ∧ ci.exitCode ≠ 0) then some .failed
  else if ci.status ≠ "exited" ∧ ¬has_restart_policy ci then some .initializing
  else none

/-- The verdict a single run container triggers, `none` when it lets the scan
continue to the next run container. -/
def runVerdict (inits : List DContainer) (cr : DContainer) :
    Option WorkloadStatusStateEnum :=
  if cr.status = "created" then
    some (if inits.isEmpty then .pending
          else (inits.findSome? initVerdict).getD .initializing)
  else if cr.status = "dead" ∨ (cr.status = "exited" ∧ cr.exitCode ≠ 0) then
    some (if ¬has_restart_policy cr then .failed else .unhealthy)
  else if cr.status ≠ "running" ∧ ¬has_restart_policy cr then some .pending
  else none

/-- The §4.E state machine, re-stated: split by component, answer
`UNKNOWN`/`PENDING` when there is no run container, otherwise the first
verdict triggered by a run container in scan order, defaulting to `RUNNING`. -/
def spec_parse_state (d_containers : List DContainer) : WorkloadStatusStateEnum :=
  let inits := d_containers.filter (fun c => c.component == some "init")
  let runs := d_containers.filter (fun c => c.component == some "run")
  if runs.isEmpty then
    if inits.isEmpty then .unknown else .pending
  else
    (runs.findSome? (runVerdict inits)).getD .running

lemma parse_state_scan_inits_eq_findSome (inits : List DContainer) :
    parse_state_scan_inits inits =
      (inits.findSome? initVerdict).getD .initializing := by
  induction inits with
  | nil => rfl
  | cons ci rest ih =>
    rw [parse_state_scan_inits, List.findSome?_cons]
    generalize hrest : List.findSome? initVerdict rest = tail
    rw [hrest] at ih
    simp only [initVerdict]
    split_ifs <;> simp_all

lemma parse_state_scan_runs_eq_findSome (inits runs : List DContainer) :
    parse_state_scan_runs inits runs =
      (runs.findSome? (runVerdict inits)).getD .running := by
  induction runs with
  | nil => rfl
  | cons cr rest ih =>
    rw [parse_state_scan_runs, List.findSome?_cons]
    generalize hrest : List.findSome? (runVerdict inits) rest = tail
    rw [hrest] at ih
    simp only [runVerdict]
    split_ifs <;> simp_all [parse_state_scan_inits_eq_findSome]

end GpustackRuntime

namespace GpustackRuntime

/-- A concrete run container in status `"created"` (no restart policy). -/
def runCreated : DContainer :=
  { component := some "run", status := "created", exitCode := 0,
    restartPolicyName := "no" }

/-- A concrete run container in status `"dead"` (no restart policy). -/
def runDead : DContainer :=
  { component := some "run", status := "dead", exitCode := 0,
    restartPolicyName := "no" }

/-- A concrete init container in status `"created"`. -/
def initCreated : DContainer :=
  { component := some "init", status := "created", exitCode := 0,
    restartPolicyName := "no" }

/-- A concrete init container in status `"dead"`. -/
def initDead : DContainer :=
  { component := some "init", status := "dead", exitCode := 0,
    restartPolicyName := "no" }

/-- C1, counterexample. The claim reads the run-`created` branch as
"FAILED when some init container is `dead` or `exited` with nonzero exit
code, and INITIALIZING otherwise". On the list
`[run(created), init(created), init(dead)]` an init container is `dead`, so
the claim mandates `FAILED`; `parse_state` scans the init containers in
order, hits the `created` one first and returns `PENDING`. -/
theorem c1_counterexample :
    parse_state [runCreated, initCreated, initDead] =
        WorkloadStatusStateEnum.pending ∧
      (parse_state [runCreated, initCreated, initDead] ≠
        WorkloadStatusStateEnum.failed) ∧
      initDead ∈ [runCreated, initCreated, initDead] ∧
      initDead.component = some "init" ∧ initDead.status = "dead" ∧
      runCreated.component = some "run" ∧ runCreated.status = "created" := by
  refine ⟨by decide, by decide, by decide, rfl, rfl, rfl, rfl⟩

/-- C1, amended. `parse_state` implements the documented state machine with
the rules applied *sequentially*: if there is no run-component container the
result is PENDING when at least one init-component container exists and
UNKNOWN otherwise; otherwise the run containers are scanned in order and the
first verdict wins — a run container in status `created` yields PENDING when
there are no init containers and otherwise the first verdict of the init scan
(an init `created` yields PENDING, an init `dead` or `exited` with nonzero
exit code yields FAILED, an init not `exited` without restart policy yields
INITIALIZING, and INITIALIZING when no init triggers); a run container `dead`
or `exited` with nonzero exit code yields FAILED without a restart policy and
UNHEALTHY with one; a run container not `running` without a restart policy
yields PENDING; and when no run container triggers a verdict the result is
RUNNING. -/
theorem c1_amended (d_containers : List DContainer) :
    parse_state d_containers = spec_parse_state d_containers := by
  simp only [parse_state, spec_parse_state, parse_state_scan_runs_eq_findSome]

/-- C2, counterexample. Swapping two run-component containers can change the
aggregated state: with no init containers, `[run(created), run(dead)]` is
`PENDING` (the `created` run container fires first) while the permutation
`[run(dead), run(created)]` is `FAILED`. -/
theorem c2_counterexample :
    ([runDead, runCreated].Perm [runCreated, runDead]) ∧
      parse_state [runCreated, runDead] = WorkloadStatusStateEnum.pending ∧
      parse_state [runDead, runCreated] = WorkloadStatusStateEnum.failed ∧
      WorkloadStatusStateEnum.pending ≠ WorkloadStatusStateEnum.failed := by
  exact ⟨List.Perm.swap _ _ _, by decide, by decide, by decide⟩

/-- C2, amended. `parse_state` is not invariant under arbitrary permutations
of its input; what does hold is that it depends only on the subsequence of
init-component containers and the subsequence of run-component containers:
two container lists with the same init subsequence and the same run
subsequence (in particular, any permutation that preserves the relative order
inside each component, such as interleaving init and run containers
differently) aggregate to the same state. -/
theorem c2_amended (cs cs' : List DContainer)
    (hinit : cs.filter (fun c => c.component == some "init") =
      cs'.filter (fun c => c.component == some "init"))
    (hrun : cs.filter (fun c => c.component == some "run") =
      cs'.filter (fun c => c.component == some "run")) :
    parse_state cs = parse_state cs' := by
  unfold parse_state
  rw [hinit, hrun]

/-- Witness for `c2_amended`: the interleavings `[init, run]` and
`[run, init]` keep each component's subsequence and aggregate equally. -/
theorem c2_amended_witness :
    parse_state [initCreated, runCreated] = parse_state [runCreated, initCreated] :=
  c2_amended [initCreated, runCreated] [runCreated, initCreated]
    (by decide) (by decide)

end GpustackRuntime

namespace GpustackRuntime

/-! ## NVIDIA detector: `_get_arch_family` (nvidia.py lines 259-292)

The Python source matches on `dev_cc_t[0]` (the compute-capability major) and
consults `dev_cc_t[1]` (the minor) in the 7.x and 8.x cases.
-/

/-- `_get_arch_family` (nvidia.py lines 259-292), with the two entries of
`dev_cc_t` passed as `major` and `minor`. -/
def _get_arch_family (major minor : ℤ) : String :=
  if major = 1 then "tesla"
  else if major = 2 then "fermi"
  else if major = 3 then "kepler"
  else if major = 5 then "maxwell"
  else if major = 6 then "pascal"
  else if major = 7 then (if minor < 5 then "volta" else "turing")
  else if major = 8 then (if minor < 9 then "ampere" else "ada-lovelace")
  else if major = 9 then "hopper"
  else if major = 10 ∨ major = 12 then "blackwell"
  else "unknown"

/-- C9: `_get_arch_family` returns the documented table value for every
compute-capability pair — 1→tesla, 2→fermi, 3→kepler, 5→maxwell, 6→pascal,
7→volta when minor<5 else turing, 8→ampere when minor<9 else ada-lovelace,
9→hopper, 10 or 12→blackwell — and `"unknown"` for every major outside the
table. -/
theorem c9_arch_family (major minor : ℤ) :
    (major = 1 → _get_arch_family major minor = "tesla") ∧
    (major = 2 → _get_arch_family major minor = "fermi") ∧
    (major = 3 → _get_arch_family major minor = "kepler") ∧
    (major = 5 → _get_arch_family major minor = "maxwell") ∧
    (major = 6 → _get_arch_family major minor = "pascal") ∧
    (major = 7 → minor < 5 → _get_arch_family major minor = "volta") ∧
    (major = 7 → 5 ≤ minor → _get_arch_family major minor = "turing") ∧
    (major = 8 → minor < 9 → _get_arch_family major minor = "ampere") ∧
    (major = 8 → 9 ≤ minor → _get_arch_family major minor = "ada-lovelace") ∧
    (major = 9 → _get_arch_family major minor = "hopper") ∧
    (major = 10 ∨ major = 12 → _get_arch_family major minor = "blackwell") ∧
    (major ∉ ([1, 2, 3, 5, 6, 7, 8, 9, 10, 12] : List ℤ) →
      _get_arch_family major minor = "unknown") := by
  refine ⟨fun h => by subst h; norm_num [_get_arch_family],
    fun h => by subst h; norm_num [_get_arch_family],
    fun h => by subst h; norm_num [_get_arch_family],
    fun h => by subst h; norm_num [_get_arch_family],
    fun h => by subst h; norm_num [_get_arch_family],
    fun h h2 => by subst h; simp only [_get_arch_family]; norm_num; omega,
    fun h h2 => by subst h; simp only [_get_arch_family]; norm_num; omega,
    fun h h2 => by subst h; simp only [_get_arch_family]; norm_num; omega,
    fun h h2 => by subst h; simp only [_get_arch_family]; norm_num; omega,
    fun h => by subst h; norm_num [_get_arch_family],
    fun h => by rcases h with h | h <;> subst h <;> norm_num [_get_arch_family],
    fun h => ?_⟩
  simp only [List.mem_cons, List.mem_singleton] at h
  push_neg at h
  obtain ⟨a1, a2, a3, a4, a5, a6, a7, a8, a9, a10⟩ := h
  simp only [_get_arch_family, if_neg a1, if_neg a2, if_neg a3, if_neg a4,
    if_neg a5, if_neg a6, if_neg a7, if_neg a8]
  rw [if_neg]
  simp [a9, a10]

/-- Witness for `c9_arch_family`: two rows of the table, evaluated. -/
theorem c9_arch_family_witness :
    _get_arch_family 7 4 = "volta" ∧ _get_arch_family 11 0 = "unknown" :=
  ⟨(c9_arch_family 7 4).2.2.2.2.2.1 rfl (by norm_num),
   (c9_arch_family 11 0).2.2.2.2.2.2.2.2.2.2.2 (by decide)⟩

end GpustackRuntime

namespace GpustackRuntime

/-! ## NVIDIA detector: `_get_compute_instance_memory_in_gib`
(nvidia.py lines 430-451)

The Python source computes with binary64 floats:

```
gib = round(ceil((mdev_attrs.memorySizeMB * (1 << 20)) / dev_mem.total * 8)
            / 8
            * ((dev_mem.total + (1 << 30) - 1) / (1 << 30)))
```

Both `/` are true (float) division; in particular the last factor is *not*
the ceiling of `total / 2^30` (the `+ (1 << 30) - 1` idiom only yields a
ceiling under integer division).  We model the arithmetic exactly over `ℚ`
together with Python's `round` (round half to even); every input the
theorems below use only produces dyadic intermediate values that binary64
represents exactly, so the rational model agrees with the float run there.
-/

/-- Python's built-in `round` on a rational: nearest integer, ties to even. -/
def pyRound (q : ℚ) : ℤ :=
  if q - ⌊q⌋ < 1 / 2 then ⌊q⌋
  else if 1 / 2 < q - ⌊q⌋ then ⌊q⌋ + 1
  else if 2 ∣ ⌊q⌋ then ⌊q⌋ else ⌊q⌋ + 1

lemma pyRound_eq_of_fract_lt (q : ℚ) (n : ℤ) (hn : ⌊q⌋ = n)
    (h : q - n < 1 / 2) : pyRound q = n := by
  simp only [pyRound, hn]
  rw [if_pos h]

lemma pyRound_eq_of_fract_gt (q : ℚ) (n : ℤ) (hn : ⌊q⌋ = n)
    (h : 1 / 2 < q - n) : pyRound q = n + 1 := by
  simp only [pyRound, hn]
  rw [if_neg (by linarith), if_pos h]

/-- `_get_compute_instance_memory_in_gib` (nvidia.py lines 430-451):
`memorySizeMB` is `mdev_attrs.memorySizeMB`, `totalB` is `dev_mem.total`. -/
def _get_compute_instance_memory_in_gib (memorySizeMB totalB : ℕ) : ℤ :=
  pyRound ((⌈(memorySizeMB : ℚ) * 2 ^ 20 / (totalB : ℚ) * 8⌉ : ℚ) / 8 *
    (((totalB : ℚ) + 2 ^ 30 - 1) / 2 ^ 30))

/-- The formula the spec documents for the MIG slice memory:
`round(ceil((slice_memory_MB * 2^20 / total_memory_B) * 8) / 8
       * ceil(total_memory_B / 2^30))`. -/
def spec_mig_memory_gib (memorySizeMB totalB : ℕ) : ℤ :=
  pyRound ((⌈(memorySizeMB : ℚ) * 2 ^ 20 / (totalB : ℚ) * 8⌉ : ℚ) / 8 *
    (⌈(totalB : ℚ) / 2 ^ 30⌉ : ℚ))

/-- C8: the code does not implement the documented formula.  At
`slice_memory_MB = 32768`, `total_memory_B = 2^35` (a full-memory slice of a
32 GiB GPU) the code's float factor `(total + 2^30 - 1) / 2^30 = 33 - 2^-30`
is not floored, so the code returns 33 while the documented formula (whose
last factor is `ceil(total / 2^30) = 32`) returns 32.  The claim's concrete
instance (total 40 GiB, slice 4864 MB → 5) does hold, for both the code and
the formula.  Every intermediate value at these inputs is a dyadic rational
exactly representable in binary64, so the exact model agrees with the float
computation. -/
theorem c8_memory_gib_code_bug :
    _get_compute_instance_memory_in_gib 32768 (2 ^ 35) = 33 ∧
    spec_mig_memory_gib 32768 (2 ^ 35) = 32 ∧
    _get_compute_instance_memory_in_gib 32768 (2 ^ 35) ≠
      spec_mig_memory_gib 32768 (2 ^ 35) ∧
    _get_compute_instance_memory_in_gib 4864 (40 * 2 ^ 30) = 5 ∧
    spec_mig_memory_gib 4864 (40 * 2 ^ 30) = 5 := by
  have hc1 : ⌈((32768 : ℕ) : ℚ) * 2 ^ 20 / ((2 ^ 35 : ℕ) : ℚ) * 8⌉ = 8 := by
    rw [Int.ceil_eq_iff] <;> push_cast <;> norm_num
  have hc2 : ⌈((2 ^ 35 : ℕ) : ℚ) / 2 ^ 30⌉ = 32 := by
    rw [Int.ceil_eq_iff] <;> push_cast <;> norm_num
  have hc3 : ⌈((4864 : ℕ) : ℚ) * 2 ^ 20 / ((40 * 2 ^ 30 : ℕ) : ℚ) * 8⌉ = 1 := by
    rw [Int.ceil_eq_iff] <;> push_cast <;> norm_num
  have hc4 : ⌈((40 * 2 ^ 30 : ℕ) : ℚ) / 2 ^ 30⌉ = 40 := by
    rw [Int.ceil_eq_iff] <;> push_cast <;> norm_num
  have e1 : _get_compute_instance_memory_in_gib 32768 (2 ^ 35) = 33 := by
    unfold _get_compute_instance_memory_in_gib
    rw [hc1]
    have harg : ((8 : ℤ) : ℚ) / 8 * ((((2 ^ 35 : ℕ) : ℚ) + 2 ^ 30 - 1) / 2 ^ 30) =
        35433480191 / 1073741824 := by push_cast; norm_num
    rw [harg, show (33 : ℤ) = 32 + 1 from rfl]
    refine pyRound_eq_of_fract_gt _ 32 ?_ (by norm_num)
    rw [Int.floor_eq_iff] <;> norm_num
  have e2 : spec_mig_memory_gib 32768 (2 ^ 35) = 32 := by
    unfold spec_mig_memory_gib
    rw [hc1, hc2]
    have harg : ((8 : ℤ) : ℚ) / 8 * ((32 : ℤ) : ℚ) = 32 := by norm_num
    rw [harg]
    refine pyRound_eq_of_fract_lt _ 32 ?_ (by norm_num)
    rw [Int.floor_eq_iff] <;> norm_num
  have e3 : _get_compute_instance_memory_in_gib 4864 (40 * 2 ^ 30) = 5 := by
    unfold _get_compute_instance_memory_in_gib
    rw [hc3]
    have harg : ((1 : ℤ) : ℚ) / 8 * ((((40 * 2 ^ 30 : ℕ) : ℚ) + 2 ^ 30 - 1) / 2 ^ 30) =
        44023414783 / 8589934592 := by push_cast; norm_num
    rw [harg]
    refine pyRound_eq_of_fract_lt _ 5 ?_ (by norm_num)
    rw [Int.floor_eq_iff] <;> norm_num
  have e4 : spec_mig_memory_gib 4864 (40 * 2 ^ 30) = 5 := by
    unfold spec_mig_memory_gib
    rw [hc3, hc4]
    have harg : ((1 : ℤ) : ℚ) / 8 * ((40 : ℤ) : ℚ) = 5 := by norm_num
    rw [harg]
    refine pyRound_eq_of_fract_lt _ 5 ?_ (by norm_num)
    rw [Int.floor_eq_iff] <;> norm_num
  exact ⟨e1, e2, by rw [e1, e2]; decide, e3, e4⟩

end GpustackRuntime

namespace GpustackRuntime

/-! ## Deployer data model (deployer/__types__.py)

Fields that none of the verified properties inspect (`image`, `envs`,
`resources`, `ports`, the timing fields of a check, `subpath` of a mount) are
omitted from the views; Python `None` is `Option`, and optional lists keep
the `Option` so that Python truthiness (`None` and `[]` are both falsy) can
be modelled exactly.
-/

/-- `ContainerCapabilities` (deployer/__types__.py lines 26-46). -/
structure ContainerCapabilities where
  add : Option (List String) := none
  drop : Option (List String) := none
  deriving Repr, DecidableEq

/-- `ContainerExecution` (deployer/__types__.py lines 49-116, including the
inherited `ContainerSecurity` fields). -/
structure ContainerExecution where
  run_as_user : Option ℤ := none
  run_as_group : Option ℤ := none
  readonly_rootfs : Bool := false
  privileged : Bool := false
  capabilities : Option ContainerCapabilities := none
  working_dir : Option String := none
  command : Option (List String) := none
  args : Option (List String) := none
  deriving Repr, DecidableEq

/-- `ContainerFile` (deployer/__types__.py lines 186-213). -/
structure ContainerFile where
  path : String
  mode : ℕ := 0o644
  content : Option String := none
  deriving Repr, DecidableEq

/-- `ContainerMountModeEnum` (deployer/__types__.py lines 216-232). -/
inductive ContainerMountModeEnum where
  | rwo
  | rox
  | rwx
  deriving Repr, DecidableEq

/-- `ContainerMount` (deployer/__types__.py lines 235-269); `subpath` is
unused by the modelled code (a TODO in the source). -/
structure ContainerMount where
  path : String
  mode : ContainerMountModeEnum := .rwx
  volume : Option String := none
  deriving Repr, DecidableEq

/-- `ContainerCheck` (deployer/__types__.py lines 381-443); only `teardown`
is inspected by the code paths under verification. -/
structure ContainerCheck where
  teardown : Bool := true
  deriving Repr, DecidableEq

/-- `ContainerProfileEnum` (deployer/__types__.py lines 446-458). -/
inductive ContainerProfileEnum where
  | run
  | init
  deriving Repr, DecidableEq

/-- `ContainerRestartPolicyEnum` (deployer/__types__.py lines 461-477).
As a Python `str`-enum all three members (including `NEVER = "Never"`) are
truthy, so `if c.restart_policy:` only tests the field against `None`. -/
inductive ContainerRestartPolicyEnum where
  | always
  | onFailure
  | never
  deriving Repr, DecidableEq

/-- `Container` (deployer/__types__.py lines 480-558). -/
structure Container where
  name : String
  profile : ContainerProfileEnum := .run
  restart_policy : Option ContainerRestartPolicyEnum := none
  execution : Option ContainerExecution := none
  files : Option (List ContainerFile) := none
  mounts : Option (List ContainerMount) := none
  checks : Option (List ContainerCheck) := none
  deriving Repr, DecidableEq

/-- `WorkloadSecuritySysctl` (deployer/__types__.py lines 561-581). -/
structure WorkloadSecuritySysctl where
  name : String
  value : String
  deriving Repr, DecidableEq

/-- `WorkloadPlan` (deployer/__types__.py lines 584-679, security fields
inherited from `WorkloadSecurity`); labels are an insertion-ordered dict. -/
structure WorkloadPlan where
  name : String := "default"
  labels : List (String × String) := []
  host_network : Bool := false
  pid_shared : Bool := false
  run_as_user : Option ℤ := none
  run_as_group : Option ℤ := none
  fs_group : Option ℤ := none
  sysctls : Option (List WorkloadSecuritySysctl) := none
  containers : List Container := []
  deriving Repr, DecidableEq

/-- Python truthiness of an optional string (`None` and `""` are falsy). -/
def strTruthy : Option String → Bool
  | none => false
  | some s => !s.isEmpty

/-- Python truthiness of an optional list (`None` and `[]` are falsy). -/
def listTruthy {α : Type} : Option (List α) → Bool
  | none => false
  | some l => !l.isEmpty

/-- Python `a or b` on optional ints (`None` and `0` are falsy). -/
def intOr (a b : Option ℤ) : Option ℤ :=
  match a with
  | some x => if x ≠ 0 then some x else b
  | none => b

end GpustackRuntime

namespace GpustackRuntime

/-! ## Restart-policy projection of `_create_containers`
(docker.py lines 628, 652-672)
-/

/-- The restart-policy/detach projection of `_create_containers`
(docker.py lines 628, 652-672): `detach` starts as
`c.profile == ContainerProfileEnum.RUN` (line 628); the `match c.profile`
block then maps the declared restart policy to the engine's
`restart_policy` parameter, forcing `detach = True` for an Init container
with policy `ALWAYS`.  `if c.restart_policy:` is `None`-or-not (see
`ContainerRestartPolicyEnum`), so an explicit `NEVER` falls through exactly
like `None` does. -/
def project_restart_policy (profile : ContainerProfileEnum)
    (restart_policy : Option ContainerRestartPolicyEnum) :
    Option String × Bool :=
  let detach := profile == ContainerProfileEnum.run
  match profile with
  | .init =>
    match restart_policy with
    | some .onFailure => (some "on-failure", detach)
    | some .always => (some "always", true)
    | _ => (none, detach)
  | .run =>
    match restart_policy with
    | none => (some "always", detach)
    | some .onFailure => (some "on-failure", detach)
    | _ => (none, detach)

/-- C5: the projected engine restart policy follows the documented mapping —
an Init container with no restart policy gets none (run once, not detached),
with OnFailure gets `on-failure`, and with Always gets `always` and is
started detached; a Run container with no restart policy gets `always`, and
with OnFailure gets `on-failure` (Run containers always start detached). -/
theorem c5_restart_policy_mapping :
    project_restart_policy .init none = (none, false) ∧
    project_restart_policy .init (some .onFailure) = (some "on-failure", false) ∧
    project_restart_policy .init (some .always) = (some "always", true) ∧
    project_restart_policy .run none = (some "always", true) ∧
    project_restart_policy .run (some .onFailure) = (some "on-failure", true) := by
  refine ⟨rfl, rfl, rfl, rfl, rfl⟩

end GpustackRuntime

namespace GpustackRuntime

/-! ## `_parameterize_container_execution` (docker.py lines 451-492) -/

/-- The `user` create-parameter is either a bare uid (Python `int`) or the
f-string `"{uid}:{gid}"`. -/
inductive UserParam where
  | uid (u : ℤ)
  | uidGid (u g : ℤ)
  deriving Repr, DecidableEq

/-- The create-parameter keys `_parameterize_container_execution` may set;
`none` models a key absent from the `create_params` dict. -/
structure CreateParams where
  working_dir : Option String := none
  entrypoint : Option (List String) := none
  command : Option (List String) := none
  user : Option UserParam := none
  group_add : Option (List ℤ) := none
  sysctls : Option (List (String × String)) := none
  read_only : Option Bool := none
  privileged : Option Bool := none
  cap_add : Option (List String) := none
  cap_drop : Option (List String) := none
  deriving Repr, DecidableEq

/-!
`DockerDeployer._parameterize_container_execution` (docker.py lines 451-492)
is a sequence of conditional mutations of the `create_params` dict; each
statement of the Python body is embedded as one `step_*` function below and
the function itself is their composition in source order.
`execution = container.execution or {}` followed by `if not execution:
return` is a `None` test, since a dataclass instance is always truthy; the
`elif cap := execution.capabilities:` is likewise a `None` test;
`cap.add`/`cap.drop` are truthiness tests on optional lists; and
`execution.run_as_user or workload.run_as_user` is Python `or`, under which
an explicit uid/gid `0` falls back to the workload-level value.
-/

/-- docker.py lines 462-463: `if execution.working_dir: ...`. -/
def step_working_dir (execution : ContainerExecution) (p : CreateParams) :
    CreateParams :=
  if strTruthy execution.working_dir then
    { p with working_dir := execution.working_dir } else p

/-- docker.py lines 464-465: `if execution.command: ...`. -/
def step_command (execution : ContainerExecution) (p : CreateParams) :
    CreateParams :=
  if listTruthy execution.command then
    { p with entrypoint := execution.command } else p

/-- docker.py lines 466-467: `if execution.args: ...`. -/
def step_args (execution : ContainerExecution) (p : CreateParams) :
    CreateParams :=
  if listTruthy execution.args then
    { p with command := execution.args } else p

/-- docker.py lines 468-473: the `user` parameter from
`run_as_user = execution.run_as_user or workload.run_as_user` (and the
group analogue). -/
def step_user (workload : WorkloadPlan) (execution : ContainerExecution)
    (p : CreateParams) : CreateParams :=
  match intOr execution.run_as_user workload.run_as_user with
  | none => p
  | some u =>
    match intOr execution.run_as_group workload.run_as_group with
    | none => { p with user := some (.uid u) }
    | some g => { p with user := some (.uidGid u g) }

/-- docker.py lines 474-479: the `group_add` parameter. -/
def step_group_add (workload : WorkloadPlan) (execution : ContainerExecution)
    (p : CreateParams) : CreateParams :=
  match intOr execution.run_as_group workload.run_as_group with
  | some g =>
    match workload.fs_group with
    | none => { p with group_add := some [g] }
    | some fg => { p with group_add := some [g, fg] }
  | none =>
    match workload.fs_group with
    | none => p
    | some fg => { p with group_add := some [fg] }

/-- docker.py lines 480-483: `if workload.sysctls: ...`. -/
def step_sysctls (workload : WorkloadPlan) (p : CreateParams) : CreateParams :=
  if listTruthy workload.sysctls then
    { p with sysctls := some (((workload.sysctls).getD []).map (fun s => (s.name, s.value))) }
  else p

/-- docker.py lines 484-485: `if execution.readonly_rootfs: ...`. -/
def step_readonly (execution : ContainerExecution) (p : CreateParams) :
    CreateParams :=
  if execution.readonly_rootfs then { p with read_only := some true } else p

/-- docker.py lines 486-492: `if execution.privileged: ... elif cap := ...`. -/
def step_capabilities (execution : ContainerExecution) (p : CreateParams) :
    CreateParams :=
  if execution.privileged then { p with privileged := some true }
  else
    match execution.capabilities with
    | none => p
    | some cap =>
      if listTruthy cap.add then { p with cap_add := cap.add }
      else if listTruthy cap.drop then { p with cap_drop := cap.drop }
      else p

/-- `DockerDeployer._parameterize_container_execution`
(docker.py lines 451-492): the statements in source order. -/
def _parameterize_container_execution (workload : WorkloadPlan)
    (container : Container) (p : CreateParams) : CreateParams :=
  match container.execution with
  | none => p
  | some execution =>
    step_capabilities execution
      (step_readonly execution
        (step_sysctls workload
          (step_group_add workload execution
            (step_user workload execution
              (step_args execution
                (step_command execution
                  (step_working_dir execution p)))))))

/-- The three create-parameter keys the capabilities step reads or writes. -/
def capsView (p : CreateParams) :
    Option (List String) × Option (List String) × Option Bool :=
  (p.cap_add, p.cap_drop, p.privileged)

lemma capsView_step_working_dir (execution : ContainerExecution)
    (p : CreateParams) : capsView (step_working_dir execution p) = capsView p := by
  unfold step_working_dir
  split_ifs <;> rfl

lemma capsView_step_command (execution : ContainerExecution)
    (p : CreateParams) : capsView (step_command execution p) = capsView p := by
  unfold step_command
  split_ifs <;> rfl

lemma capsView_step_args (execution : ContainerExecution)
    (p : CreateParams) : capsView (step_args execution p) = capsView p := by
  unfold step_args
  split_ifs <;> rfl

lemma capsView_step_user (workload : WorkloadPlan)
    (execution : ContainerExecution) (p : CreateParams) :
    capsView (step_user workload execution p) = capsView p := by
  unfold step_user
  rcases intOr execution.run_as_user workload.run_as_user with _ | u <;>
    rcases intOr execution.run_as_group workload.run_as_group with _ | g <;> rfl

lemma capsView_step_group_add (workload : WorkloadPlan)
    (execution : ContainerExecution) (p : CreateParams) :
    capsView (step_group_add workload execution p) = capsView p := by
  unfold step_group_add
  rcases intOr execution.run_as_group workload.run_as_group with _ | g <;>
    rcases workload.fs_group with _ | fg <;> rfl

lemma capsView_step_sysctls (workload : WorkloadPlan) (p : CreateParams) :
    capsView (step_sysctls workload p) = capsView p := by
  unfold step_sysctls
  split_ifs <;> rfl

lemma capsView_step_readonly (execution : ContainerExecution)
    (p : CreateParams) : capsView (step_readonly execution p) = capsView p := by
  unfold step_readonly
  split_ifs <;> rfl

/-- C10: when a container's execution is not privileged and its capabilities
carry both a non-empty `add` and a non-empty `drop` list, the projected
parameters contain `cap_add` with the add list and leave `cap_drop` unset
(drops apply only when no adds are present); and when `privileged` is set
neither `cap_add` nor `cap_drop` is applied.  Quantified over any incoming
`create_params` in which the three keys are still absent, which is how
`_create_containers` calls this helper. -/
theorem c10_cap_add_shadows_cap_drop (workload : WorkloadPlan)
    (container : Container) (p : CreateParams)
    (execution : ContainerExecution) (cap : ContainerCapabilities)
    (hex : container.execution = some execution)
    (hcap : execution.capabilities = some cap)
    (hadd : listTruthy cap.add = true)
    (hdrop : listTruthy cap.drop = true)
    (hp1 : p.cap_add = none) (hp2 : p.cap_drop = none)
    (hp3 : p.privileged = none) :
    (execution.privileged = false →
      (_parameterize_container_execution workload container p).cap_add = cap.add ∧
      (_parameterize_container_execution workload container p).cap_drop = none) ∧
    (execution.privileged = true →
      (_parameterize_container_execution workload container p).cap_add = none ∧
      (_parameterize_container_execution workload container p).cap_drop = none ∧
      (_parameterize_container_execution workload container p).privileged =
        some true) := by
  simp only [_parameterize_container_execution, hex]
  have hv : capsView (step_readonly execution (step_sysctls workload
      (step_group_add workload execution (step_user workload execution
        (step_args execution (step_command execution
          (step_working_dir execution p))))))) = capsView p := by
    rw [capsView_step_readonly, capsView_step_sysctls, capsView_step_group_add,
      capsView_step_user, capsView_step_args, capsView_step_command,
      capsView_step_working_dir]
  generalize hq : (step_readonly execution (step_sysctls workload
      (step_group_add workload execution (step_user workload execution
        (step_args execution (step_command execution
          (step_working_dir execution p))))))) = q at hv ⊢
  have hq1 : q.cap_add = none := by
    have := congrArg Prod.fst hv
    simpa [capsView, hp1] using this
  have hq2 : q.cap_drop = none := by
    have := congrArg (fun x => x.2.1) hv
    simpa [capsView, hp2] using this
  have hq3 : q.privileged = none := by
    have := congrArg (fun x => x.2.2) hv
    simpa [capsView, hp3] using this
  constructor <;> intro hpriv <;>
    simp [step_capabilities, hpriv, hcap, hadd, hdrop, hq1, hq2, hq3]

/-- A concrete capabilities block that both adds `NET_ADMIN` and drops
`ALL`. -/
def c10Caps : ContainerCapabilities :=
  { add := some ["NET_ADMIN"], drop := some ["ALL"] }

/-- A concrete non-privileged execution carrying `c10Caps`. -/
def c10Execution : ContainerExecution :=
  { capabilities := some c10Caps }

/-- A concrete container carrying `c10Execution`. -/
def c10Container : Container :=
  { name := "c0", execution := some c10Execution }

/-- Witness for `c10_cap_add_shadows_cap_drop` at a concrete container that
adds `NET_ADMIN` and drops `ALL`. -/
theorem c10_cap_add_shadows_cap_drop_witness :
    (c10Execution.privileged = false →
      (_parameterize_container_execution {} c10Container {}).cap_add =
        c10Caps.add ∧
      (_parameterize_container_execution {} c10Container {}).cap_drop = none) ∧
    (c10Execution.privileged = true →
      (_parameterize_container_execution {} c10Container {}).cap_add = none ∧
      (_parameterize_container_execution {} c10Container {}).cap_drop = none ∧
      (_parameterize_container_execution {} c10Container {}).privileged =
        some true) :=
  c10_cap_add_shadows_cap_drop {} c10Container {} c10Execution c10Caps
    rfl rfl rfl rfl rfl rfl rfl

end GpustackRuntime

namespace GpustackRuntime

/-! ## Engine state, labels, and `_create_ephemeral_volumes`
(docker.py lines 300-319)
-/

/-- The Python exceptions the modelled code can raise. -/
inductive PyErr where
  /-- Tuple-unpacking mismatch; escapes uncaught by the modelled code. -/
  | valueError
  /-- `OperationError`, the deployer's typed failure. -/
  | operationError
  /-- Raised by the profile-table lookups of the NVIDIA detector. -/
  | attributeError
  deriving Repr, DecidableEq

/-- Reserved label `runtime.gpustack.ai/workload` (docker.py line 56). -/
def _LABEL_WORKLOAD : String := "runtime.gpustack.ai/workload"

/-- Reserved label `runtime.gpustack.ai/component` (docker.py line 57). -/
def _LABEL_COMPONENT : String := "runtime.gpustack.ai/component"

/-- Reserved label `runtime.gpustack.ai/component-name` (docker.py line 58). -/
def _LABEL_COMPONENT_NAME : String := "runtime.gpustack.ai/component-name"

/-- Reserved label `runtime.gpustack.ai/component-index` (docker.py line 59). -/
def _LABEL_COMPONENT_INDEX : String := "runtime.gpustack.ai/component-index"

/-- Reserved label stem `runtime.gpustack.ai/component-heal`
(docker.py line 60). -/
def _LABEL_COMPONENT_HEAL : String := "runtime.gpustack.ai/component-heal"

/-- Python dict assignment `d[k] = v` on an insertion-ordered dict: an
existing key keeps its position and gets the new value, a new key is
appended. -/
def dictInsert {κ : Type} [BEq κ] (d : List (κ × String)) (k : κ) (v : String) :
    List (κ × String) :=
  if d.any (fun kv => kv.1 == k) then
    d.map (fun kv => if kv.1 == k then (kv.1, v) else kv)
  else d ++ [(k, v)]

/-- Python dict lookup `d.get(k)`. -/
def dictGet {κ : Type} [BEq κ] (d : List (κ × String)) (k : κ) : Option String :=
  (d.find? (fun kv => kv.1 == k)).map (fun kv => kv.2)

/-- An engine-side named volume: `volumes.create(name=…, driver="local",
labels=…)`; `removeFails` models the engine answering the later
`v.remove(force=True)` with an `APIError`. -/
structure EngineVolume where
  name : String
  labels : List (String × String) := []
  removeFails : Bool := false
  deriving Repr, DecidableEq

/-- The dict comprehension of `_create_ephemeral_volumes` (docker.py lines
301-306): `{m.volume: f"{workload.name}-{m.volume}" for c in
workload.containers for m in c.mounts or [] if m.volume}`. -/
def ephemeral_volume_name_mapping (workload : WorkloadPlan) :
    List (String × String) :=
  workload.containers.foldl (fun d c =>
    ((c.mounts).getD []).foldl (fun d m =>
      match m.volume with
      | some vol =>
        if vol.isEmpty then d
        else dictInsert d vol (workload.name ++ "-" ++ vol)
      | none => d) d) []

/-- Python 2-tuple unpacking `_, n = s` applied to a *string* `s`: it
succeeds exactly when `s` has exactly two characters (yielding them) and
raises `ValueError` otherwise. -/
def unpack2 (s : String) : Except PyErr (Char × Char)  :=
  match s.data with
  | [a, b] => .ok (a, b)
  | _ => .error .valueError

/-- The creation loop of `_create_ephemeral_volumes` (docker.py lines
308-317): `for _, n in ephemeral_volume_name_mapping.values():` — each dict
*value* (a string) is tuple-unpacked, and the volume is created under `n`,
the second character.  A `ValueError` from the unpacking is not a
`docker.errors.APIError`, so it escapes the `try` uncaught; the loop state
is the volumes created so far. -/
def create_volumes_loop (workload : WorkloadPlan) :
    List String → List EngineVolume → Option PyErr × List EngineVolume
  | [], acc => (none, acc)
  | v :: rest, acc =>
    match unpack2 v with
    | .error e => (some e, acc)
    | .ok (_, n) =>
      create_volumes_loop workload rest
        (acc ++ [{ name := String.mk [n], labels := workload.labels }])

/-- `DockerDeployer._create_ephemeral_volumes` (docker.py lines 300-319):
build the name mapping, then iterate its values creating the volumes;
returns (raised exception if any, volumes actually created, the mapping). -/
def _create_ephemeral_volumes (workload : WorkloadPlan) :
    Option PyErr × List EngineVolume × List (String × String) :=
  let mapping := ephemeral_volume_name_mapping workload
  let (err, vols) := create_volumes_loop workload (mapping.map (fun kv => kv.2)) []
  (err, vols, mapping)

/-- A mount of the ephemeral volume `v` at `/data`. -/
def c3Mount : ContainerMount :=
  { path := "/data", volume := some "v" }

/-- A container carrying `c3Mount`. -/
def c3Container : Container :=
  { name := "c0", mounts := some [c3Mount] }

/-- A plan named `w` with one container mounting one ephemeral volume `v`. -/
def c3Plan : WorkloadPlan :=
  { name := "w", containers := [c3Container] }

/-- C3: on the plan `{name: "w"}` with a single mount of volume `v` the
mapping is `{"v": "w-v"}` as documented, but the creation loop unpacks the
three-character string value `"w-v"` as a 2-tuple (`for _, n in
mapping.values()`), raising `ValueError` before any volume is created — no
volume named `w-v` (or anything else) ever materialises.  The loop can only
avoid the `ValueError` when every materialised name has exactly two
characters, so the claim fails for every plan whose name is non-empty. -/
theorem c3_ephemeral_volume_code_bug :
    ephemeral_volume_name_mapping c3Plan = [("v", "w-v")] ∧
    (_create_ephemeral_volumes c3Plan).1 = some PyErr.valueError ∧
    (_create_ephemeral_volumes c3Plan).2.1 = [] :=
  ⟨rfl, rfl, rfl⟩

end GpustackRuntime

namespace GpustackRuntime

/-! ## Ephemeral files (docker.py lines 321-341), the engine container view,
container creation (docker.py lines 343-449, 598-790) and `create`
(docker.py lines 827-894)

The models record which engine objects exist (containers with their name,
labels and restart policy; volumes; host files): that is what the
object-lifecycle claims C4 and C6 quantify over.  Parameters that only shape
a container's runtime configuration (network/ipc/pid modes, ports, envs,
resources, healthcheck command) and the start phase (docker.py lines
885-894), which mutates only the runtime status of objects already
materialised, are not modelled; filesystem writes are modelled as succeeding
(`OSError` is outside the program). -/

/-- An ephemeral file on the host filesystem, written under
`GPUSTACK_RUNTIME_DOCKER_EPHEMERAL_FILES_DIR`. -/
structure EngineFile where
  name : String
  content : String
  mode : ℕ
  deriving Repr, DecidableEq

/-- An engine-side container as far as the lifecycle claims inspect it. -/
structure EngineContainer where
  name : String
  labels : List (String × String) := []
  status : String := "created"
  restart_policy : Option String := none
  /-- Models the engine answering `c.remove(force=True)` with an
  `APIError`. -/
  removeFails : Bool := false
  deriving Repr, DecidableEq

/-- The engine-plus-filesystem state the deployer owns no copy of
(spec §3 Ownership). -/
structure Engine where
  containers : List EngineContainer := []
  volumes : List EngineVolume := []
  files : List EngineFile := []
  deriving Repr, DecidableEq

/-- Writing one file (`fp.open("w")` truncates an existing file, so a
same-named file is replaced in place). -/
def fsWrite (fs : List EngineFile) (f : EngineFile) : List EngineFile :=
  if fs.any (fun g => g.name == f.name) then
    fs.map (fun g => if g.name == f.name then f else g)
  else fs ++ [f]

/-- `DockerDeployer._create_ephemeral_files` (docker.py lines 321-341):
for every `(ci, fi)` with inline content, file name
`{workload.name}-{ci}-{fi}`, mapping key `(ci, f.path)`; the written mode is
`f.mode if f.mode else 0o644` (a mode of `0` is falsy and falls back to the
default).  Returns (the mapping, the files written in order). -/
def _create_ephemeral_files (workload : WorkloadPlan) :
    List ((ℕ × String) × String) × List EngineFile :=
  let folded := workload.containers.enum.foldl (fun acc cic =>
    let ci := cic.1
    let c := cic.2
    ((c.files).getD []).enum.foldl (fun acc fif =>
      let fi := fif.1
      let f := fif.2
      match f.content with
      | none => acc
      | some content =>
        let fn := workload.name ++ "-" ++ toString ci ++ "-" ++ toString fi
        (dictInsert acc.1 (ci, f.path) fn,
         acc.2 ++ [{ name := fn, content := content,
                     mode := if f.mode ≠ 0 then f.mode else 0o644 }])) acc)
    ([], [])
  folded

/-- `str.lower()` of a `ContainerProfileEnum` value. -/
def profile_lower : ContainerProfileEnum → String
  | .run => "run"
  | .init => "init"

/-- `self._client.containers.get(name)`, `NotFound` as `none`. -/
def containerGet (st : Engine) (name : String) : Option EngineContainer :=
  st.containers.find? (fun c => c.name == name)

/-- `DockerDeployer._create_pause_container` (docker.py lines 343-396):
adopt an existing `{name}-pause` container, otherwise create it with the
workload labels plus `component=pause` and restart policy `always`. -/
def _create_pause_container (workload : WorkloadPlan) (st : Engine) : Engine :=
  let container_name := workload.name ++ "-pause"
  match containerGet st container_name with
  | some _ => st
  | none =>
    { st with containers := st.containers ++ [{
        name := container_name,
        labels := dictInsert workload.labels _LABEL_COMPONENT "pause",
        restart_policy := some "always" }] }

/-- `DockerDeployer._create_containers` (docker.py lines 598-790), projected
to object existence: per `(ci, c)` the container `{name}-{profile}-{ci}` is
adopted if present, otherwise created with the workload labels plus
`component`, `component-name`, `component-index`, the
`component-heal-{name}=true` label when the first check of a Run container
has `teardown`, and the restart policy from `project_restart_policy`. -/
def _create_containers (workload : WorkloadPlan) (st : Engine) : Engine :=
  workload.containers.enum.foldl (fun st cic =>
    let ci := cic.1
    let c := cic.2
    let container_name :=
      workload.name ++ "-" ++ profile_lower c.profile ++ "-" ++ toString ci
    match containerGet st container_name with
    | some _ => st
    | none =>
      let rp := (project_restart_policy c.profile c.restart_policy).1
      let labels := dictInsert (dictInsert (dictInsert workload.labels
        _LABEL_COMPONENT (profile_lower c.profile))
        _LABEL_COMPONENT_NAME c.name)
        _LABEL_COMPONENT_INDEX (toString ci)
      let labels :=
        match c.profile, c.checks with
        | .run, some (ch :: _) =>
          if ch.teardown then
            dictInsert labels (_LABEL_COMPONENT_HEAL ++ "-" ++ workload.name)
              "true"
          else labels
        | _, _ => labels
      { st with containers := st.containers ++ [{
          name := container_name, labels := labels,
          restart_policy := rp }] }) st

/-- `DockerDeployer._create_unhealthy_restart_container` (docker.py lines
398-449): created only when the first check of some Run container has
`teardown` enabled; adoption by name applies; labels are the workload's plus
`component=unhealthy-restart`, restart policy `always`. -/
def _create_unhealthy_restart_container (workload : WorkloadPlan)
    (st : Engine) : Engine :=
  let enabled := workload.containers.any (fun c =>
    match c.profile, c.checks with
    | .run, some (ch :: _) => ch.teardown
    | _, _ => false)
  if !enabled then st
  else
    let container_name := workload.name ++ "-unhealthy-restart"
    match containerGet st container_name with
    | some _ => st
    | none =>
      { st with containers := st.containers ++ [{
          name := container_name,
          labels := dictInsert workload.labels _LABEL_COMPONENT
            "unhealthy-restart",
          restart_policy := some "always" }] }

/-- `DockerDeployer.create` (docker.py lines 827-894): validation first
(`OperationError` when the containers list is empty or has no RUN
container, before any filesystem or engine effect), then label defaulting,
ephemeral files, ephemeral volumes, pause container, init/run containers and
the autoheal container; the start phase is not modelled (see the section
comment). -/
def create (workload : WorkloadPlan) (st : Engine) : Option PyErr × Engine :=
  if workload.containers.isEmpty then (some .operationError, st)
  else if !(workload.containers.any
      (fun c => c.profile == ContainerProfileEnum.run)) then
    (some .operationError, st)
  else
    let workload := { workload with
      labels := dictInsert workload.labels _LABEL_WORKLOAD workload.name }
    let ef := _create_ephemeral_files workload
    let st := { st with files := ef.2.foldl fsWrite st.files }
    let ev := _create_ephemeral_volumes workload
    let st := { st with volumes := st.volumes ++ ev.2.1 }
    match ev.1 with
    | some e => (some e, st)
    | none =>
      let st := _create_pause_container workload st
      let st := _create_containers workload st
      let st := _create_unhealthy_restart_container workload st
      (none, st)

/-- C6: a plan whose containers carry no Run profile is rejected with
`OperationError` before any engine call or filesystem write is attempted —
the engine-plus-filesystem state comes back unchanged.  (The empty containers
list falls under the same conclusion via the preceding emptiness check.) -/
theorem c6_create_validates_before_effects (workload : WorkloadPlan)
    (st : Engine)
    (h : ∀ c ∈ workload.containers, c.profile ≠ ContainerProfileEnum.run) :
    create workload st = (some PyErr.operationError, st) := by
  by_cases hne : workload.containers.isEmpty
  · simp [create, hne]
  · have hany : workload.containers.any
        (fun c => c.profile == ContainerProfileEnum.run) = false := by
      rw [List.any_eq_false]
      intro c hc
      simpa using h c hc
    simp [create, hne, hany]

/-- A plan with a single Init container and no Run container. -/
def c6Plan : WorkloadPlan :=
  { name := "w6", containers := [{ name := "i0", profile := .init }] }

/-- Witness for `c6_create_validates_before_effects` on `c6Plan` against the
empty engine. -/
theorem c6_create_validates_before_effects_witness :
    create c6Plan {} = (some PyErr.operationError, {}) :=
  c6_create_validates_before_effects c6Plan {} (by decide)

end GpustackRuntime

namespace GpustackRuntime

/-! ## `DockerDeployer.delete` (docker.py lines 941-1008)

`delete` runs `get(name)` (a container listing filtered by
`{workload}={name}` plus presence of the `component` label, docker.py lines
915-922), answers `None` when nothing matches, and then runs three phases,
each wrapped in its own `try`: force-remove every matched container, remove
every volume labeled with the workload, unlink every ephemeral file matching
`{name}-*`.  A `docker.errors.APIError` inside a phase is wrapped as
`OperationError` and *raised immediately*, aborting the remaining removals
of that phase and every later phase.
-/

/-- Membership in `Path.glob(f"{name}-*")` (docker.py lines 999-1001): the
file name starts with `name ++ "-"` (a `*` also matches the empty rest). -/
def glob_matches (stem : String) (fn : String) : Bool :=
  (stem ++ "-").data.isPrefixOf fn.data

/-- The `get` filter: label `runtime.gpustack.ai/workload={name}` and the
presence of `runtime.gpustack.ai/component`. -/
def matches_workload_component (name : String) (c : EngineContainer) : Bool :=
  dictGet c.labels _LABEL_WORKLOAD == some name &&
    (dictGet c.labels _LABEL_COMPONENT).isSome

/-- The container phase of `delete` (docker.py lines 966-974): remove each
matched container in order; the first engine error aborts with the removals
so far kept. -/
def remove_containers_loop :
    List EngineContainer → List EngineContainer →
      Option PyErr × List EngineContainer
  | [], cs => (none, cs)
  | t :: rest, cs =>
    if t.removeFails then (some .operationError, cs)
    else remove_containers_loop rest (cs.filter (fun c => c.name != t.name))

/-- The volume phase of `delete` (docker.py lines 976-995), same shape. -/
def remove_volumes_loop :
    List EngineVolume → List EngineVolume → Option PyErr × List EngineVolume
  | [], vs => (none, vs)
  | t :: rest, vs =>
    if t.removeFails then (some .operationError, vs)
    else remove_volumes_loop rest (vs.filter (fun v => v.name != t.name))

/-- Outcome of `delete`: `None` (workload unknown), normal return, or a
raised error. -/
inductive DeleteResult where
  | notFound
  | ok
  | err (e : PyErr)
  deriving Repr, DecidableEq

/-- `DockerDeployer.delete` (docker.py lines 941-1008). -/
def delete (name : String) (st : Engine) : DeleteResult × Engine :=
  let ds := st.containers.filter (matches_workload_component name)
  if ds.isEmpty then (.notFound, st)
  else
    match remove_containers_loop ds st.containers with
    | (some e, cs) => (.err e, { st with containers := cs })
    | (none, cs) =>
      let st := { st with containers := cs }
      let vs := st.volumes.filter
        (fun v => dictGet v.labels _LABEL_WORKLOAD == some name)
      match remove_volumes_loop vs st.volumes with
      | (some e, vols) => (.err e, { st with volumes := vols })
      | (none, vols) =>
        let st := { st with volumes := vols }
        (.ok, { st with files :=
          st.files.filter (fun f => !(glob_matches name f.name)) })

/-- A run container of workload `w` whose removal the engine refuses. -/
def c4ContFail : EngineContainer :=
  { name := "w-run-0",
    labels := [(_LABEL_WORKLOAD, "w"), (_LABEL_COMPONENT, "run")],
    removeFails := true }

/-- An init container of workload `w` whose removal would succeed. -/
def c4ContOk : EngineContainer :=
  { name := "w-init-0",
    labels := [(_LABEL_WORKLOAD, "w"), (_LABEL_COMPONENT, "init")] }

/-- A volume labeled with workload `w`. -/
def c4Vol : EngineVolume :=
  { name := "w-v", labels := [(_LABEL_WORKLOAD, "w")] }

/-- An ephemeral file of workload `w`. -/
def c4File : EngineFile := { name := "w-0-0", content := "x", mode := 0o644 }

/-- An engine state holding workload `w`: two containers (the first fails to
remove), one labeled volume, one ephemeral file. -/
def c4State : Engine :=
  { containers := [c4ContFail, c4ContOk], volumes := [c4Vol],
    files := [c4File] }

/-- C4, counterexample.  When the first container removal raises an engine
error, `delete` raises `OperationError` at once: the second container is
never removed, the volume phase and the file phase are never attempted —
the labeled volume and the `w-*` file survive, although the claim mandates
best-effort cleanup of all three phases. -/
theorem c4_counterexample :
    (delete "w" c4State).1 = DeleteResult.err PyErr.operationError ∧
    (delete "w" c4State).2 = c4State ∧
    dictGet c4Vol.labels _LABEL_WORKLOAD = some "w" ∧
    c4Vol ∈ (delete "w" c4State).2.volumes ∧
    glob_matches "w" c4File.name = true ∧
    c4File ∈ (delete "w" c4State).2.files ∧
    matches_workload_component "w" c4ContOk = true ∧
    c4ContOk ∈ (delete "w" c4State).2.containers := by
  decide

lemma remove_containers_loop_ok (ts cs : List EngineContainer)
    (hok : ∀ t ∈ ts, t.removeFails = false) :
    remove_containers_loop ts cs =
      (none, cs.filter (fun c => ts.all (fun t => c.name != t.name))) := by
  induction ts generalizing cs with
  | nil => simp [remove_containers_loop]
  | cons t rest ih =>
    rw [remove_containers_loop]
    rw [if_neg (by simp [hok t (by simp)])]
    rw [ih _ (fun u hu => hok u (by simp [hu]))]
    rw [List.filter_filter]
    refine congrArg _ (List.filter_congr fun c _ => ?_)
    rw [List.all_cons, Bool.and_comm]

lemma remove_volumes_loop_ok (ts vs : List EngineVolume)
    (hok : ∀ t ∈ ts, t.removeFails = false) :
    remove_volumes_loop ts vs =
      (none, vs.filter (fun v => ts.all (fun t => v.name != t.name))) := by
  induction ts generalizing vs with
  | nil => simp [remove_volumes_loop]
  | cons t rest ih =>
    rw [remove_volumes_loop]
    rw [if_neg (by simp [hok t (by simp)])]
    rw [ih _ (fun u hu => hok u (by simp [hu]))]
    rw [List.filter_filter]
    refine congrArg _ (List.filter_congr fun v _ => ?_)
    rw [List.all_cons, Bool.and_comm]

lemma filter_not_mem_names {α : Type} [DecidableEq α] (l : List α)
    (nameOf : α → String) (p : α → Bool)
    (hnd : (l.map nameOf).Nodup) :
    ∀ c ∈ l, ((l.filter p).all (fun t => nameOf c != nameOf t)) = !(p c) := by
  intro c hc
  by_cases hm : p c = true
  · simp only [hm, Bool.not_true]
    rw [List.all_eq_false]
    exact ⟨c, List.mem_filter.mpr ⟨hc, hm⟩, by simp⟩
  · simp only [Bool.not_eq_true] at hm
    simp only [hm, Bool.not_false]
    rw [List.all_eq_true]
    intro t ht
    have htmem := List.mem_of_mem_filter ht
    have htp := List.of_mem_filter ht
    simp only [bne_iff_ne, ne_eq]
    intro heq
    have hct : c = t := List.inj_on_of_nodup_map hnd hc htmem heq
    rw [hct, htp] at hm
    cases hm

/-- C4, amended.  `delete` is not best-effort across phases: each phase
aborts at its first engine error and later phases are skipped.  What does
hold is the error-free case: when every matched container and every labeled
volume removes cleanly (and engine names are unique, as the engine
guarantees), `delete` completes all three phases — afterwards no container
matching the workload remains, no volume labeled with the workload remains,
and no `{name}-*` ephemeral file remains. -/
theorem c4_amended (name : String) (st : Engine)
    (hnd : (st.containers.map (fun c => c.name)).Nodup)
    (hvnd : (st.volumes.map (fun v => v.name)).Nodup)
    (hfound : (st.containers.filter (matches_workload_component name)).isEmpty
      = false)
    (hcok : ∀ c ∈ st.containers, matches_workload_component name c = true →
      c.removeFails = false)
    (hvok : ∀ v ∈ st.volumes,
      (dictGet v.labels _LABEL_WORKLOAD == some name) = true →
      v.removeFails = false) :
    delete name st = (DeleteResult.ok,
      { containers :=
          st.containers.filter (fun c => !(matches_workload_component name c)),
        volumes := st.volumes.filter
          (fun v => !(dictGet v.labels _LABEL_WORKLOAD == some name)),
        files := st.files.filter
          (fun f => !(glob_matches name f.name)) }) := by
  unfold delete
  rw [if_neg (by simp [hfound])]
  rw [remove_containers_loop_ok _ _
    (fun t ht => hcok t (List.mem_of_mem_filter ht) (List.of_mem_filter ht))]
  rw [List.filter_congr
    (filter_not_mem_names st.containers (fun c => c.name)
      (matches_workload_component name) hnd)]
  dsimp only
  have hvok2 : ∀ t ∈ st.volumes.filter
      (fun v => dictGet v.labels _LABEL_WORKLOAD == some name),
      t.removeFails = false := by
    intro t ht
    exact hvok t (List.mem_of_mem_filter ht) (by simpa using List.of_mem_filter ht)
  rw [remove_volumes_loop_ok _ _ hvok2]
  rw [List.filter_congr
    (filter_not_mem_names st.volumes (fun v => v.name)
      (fun v => dictGet v.labels _LABEL_WORKLOAD == some name) hvnd)]

/-- A cleanly removable run container of workload `w2`. -/
def c4OkCont : EngineContainer :=
  { name := "w2-run-0",
    labels := [(_LABEL_WORKLOAD, "w2"), (_LABEL_COMPONENT, "run")] }

/-- A volume labeled with workload `w2`. -/
def c4OkVol : EngineVolume :=
  { name := "w2-v", labels := [(_LABEL_WORKLOAD, "w2")] }

/-- An ephemeral file of workload `w2`. -/
def c4OkFile : EngineFile := { name := "w2-0-0", content := "x", mode := 0o600 }

/-- A file of some other workload. -/
def c4OtherFile : EngineFile := { name := "other", content := "y", mode := 0o600 }

/-- An engine state for workload `w2`: one cleanly removable run container,
one labeled volume, one ephemeral file and one unrelated file. -/
def c4OkState : Engine :=
  { containers := [c4OkCont], volumes := [c4OkVol],
    files := [c4OkFile, c4OtherFile] }

/-- Witness for `c4_amended` on `c4OkState`. -/
theorem c4_amended_witness :
    delete "w2" c4OkState = (DeleteResult.ok,
      { containers := c4OkState.containers.filter
          (fun c => !(matches_workload_component "w2" c)),
        volumes := c4OkState.volumes.filter
          (fun v => !(dictGet v.labels _LABEL_WORKLOAD == some "w2")),
        files := c4OkState.files.filter
          (fun f => !(glob_matches "w2" f.name)) }) :=
  c4_amended "w2" c4OkState (by decide) (by decide) (by decide) (by decide)
    (by decide)

end GpustackRuntime

namespace GpustackRuntime

/-! ## NVIDIA detector: MIG enumeration (nvidia.py lines 136-244)

Constants of the external NVML library, with the values the NVML headers
(and `pynvml`) define; `detect` iterates profile ids over
`range(*_COUNT)`.
-/

def NVML_GPU_INSTANCE_PROFILE_1_SLICE : ℕ := 0x0
def NVML_GPU_INSTANCE_PROFILE_2_SLICE : ℕ := 0x1
def NVML_GPU_INSTANCE_PROFILE_3_SLICE : ℕ := 0x2
def NVML_GPU_INSTANCE_PROFILE_4_SLICE : ℕ := 0x3
def NVML_GPU_INSTANCE_PROFILE_7_SLICE : ℕ := 0x4
def NVML_GPU_INSTANCE_PROFILE_8_SLICE : ℕ := 0x5
def NVML_GPU_INSTANCE_PROFILE_6_SLICE : ℕ := 0x6
def NVML_GPU_INSTANCE_PROFILE_1_SLICE_REV1 : ℕ := 0x7
def NVML_GPU_INSTANCE_PROFILE_2_SLICE_REV1 : ℕ := 0x8
def NVML_GPU_INSTANCE_PROFILE_1_SLICE_REV2 : ℕ := 0x9
def NVML_GPU_INSTANCE_PROFILE_1_SLICE_GFX : ℕ := 0xA
def NVML_GPU_INSTANCE_PROFILE_2_SLICE_GFX : ℕ := 0xB
def NVML_GPU_INSTANCE_PROFILE_4_SLICE_GFX : ℕ := 0xC
def NVML_GPU_INSTANCE_PROFILE_1_SLICE_NO_ME : ℕ := 0xD
def NVML_GPU_INSTANCE_PROFILE_2_SLICE_NO_ME : ℕ := 0xE
def NVML_GPU_INSTANCE_PROFILE_1_SLICE_ALL_ME : ℕ := 0xF
def NVML_GPU_INSTANCE_PROFILE_2_SLICE_ALL_ME : ℕ := 0x10
def NVML_GPU_INSTANCE_PROFILE_COUNT : ℕ := 0x11

def NVML_COMPUTE_INSTANCE_PROFILE_1_SLICE : ℕ := 0x0
def NVML_COMPUTE_INSTANCE_PROFILE_2_SLICE : ℕ := 0x1
def NVML_COMPUTE_INSTANCE_PROFILE_3_SLICE : ℕ := 0x2
def NVML_COMPUTE_INSTANCE_PROFILE_4_SLICE : ℕ := 0x3
def NVML_COMPUTE_INSTANCE_PROFILE_7_SLICE : ℕ := 0x4
def NVML_COMPUTE_INSTANCE_PROFILE_8_SLICE : ℕ := 0x5
def NVML_COMPUTE_INSTANCE_PROFILE_6_SLICE : ℕ := 0x6
def NVML_COMPUTE_INSTANCE_PROFILE_1_SLICE_REV1 : ℕ := 0x7
def NVML_COMPUTE_INSTANCE_PROFILE_COUNT : ℕ := 0x8

def NVML_COMPUTE_INSTANCE_ENGINE_PROFILE_COUNT : ℕ := 0x1

/-- `_get_gpu_instance_slices` (nvidia.py lines 295-340); ids outside the
table raise `AttributeError`. -/
def _get_gpu_instance_slices (dev_gi_prf_id : ℕ) : Except PyErr ℕ :=
  if dev_gi_prf_id = NVML_GPU_INSTANCE_PROFILE_1_SLICE ∨
     dev_gi_prf_id = NVML_GPU_INSTANCE_PROFILE_1_SLICE_REV1 ∨
     dev_gi_prf_id = NVML_GPU_INSTANCE_PROFILE_1_SLICE_REV2 ∨
     dev_gi_prf_id = NVML_GPU_INSTANCE_PROFILE_1_SLICE_GFX ∨
     dev_gi_prf_id = NVML_GPU_INSTANCE_PROFILE_1_SLICE_NO_ME ∨
     dev_gi_prf_id = NVML_GPU_INSTANCE_PROFILE_1_SLICE_ALL_ME then .ok 1
  else if dev_gi_prf_id = NVML_GPU_INSTANCE_PROFILE_2_SLICE ∨
     dev_gi_prf_id = NVML_GPU_INSTANCE_PROFILE_2_SLICE_REV1 ∨
     dev_gi_prf_id = NVML_GPU_INSTANCE_PROFILE_2_SLICE_GFX ∨
     dev_gi_prf_id = NVML_GPU_INSTANCE_PROFILE_2_SLICE_NO_ME ∨
     dev_gi_prf_id = NVML_GPU_INSTANCE_PROFILE_2_SLICE_ALL_ME then .ok 2
  else if dev_gi_prf_id = NVML_GPU_INSTANCE_PROFILE_3_SLICE then .ok 3
  else if dev_gi_prf_id = NVML_GPU_INSTANCE_PROFILE_4_SLICE ∨
     dev_gi_prf_id = NVML_GPU_INSTANCE_PROFILE_4_SLICE_GFX then .ok 4
  else if dev_gi_prf_id = NVML_GPU_INSTANCE_PROFILE_6_SLICE then .ok 6
  else if dev_gi_prf_id = NVML_GPU_INSTANCE_PROFILE_7_SLICE then .ok 7
  else if dev_gi_prf_id = NVML_GPU_INSTANCE_PROFILE_8_SLICE then .ok 8
  else .error .attributeError

/-- `_get_gpu_instance_attrs` (nvidia.py lines 343-372). -/
def _get_gpu_instance_attrs (dev_gi_prf_id : ℕ) : String :=
  if dev_gi_prf_id = NVML_GPU_INSTANCE_PROFILE_1_SLICE_REV1 ∨
     dev_gi_prf_id = NVML_GPU_INSTANCE_PROFILE_2_SLICE_REV1 then "me"
  else if dev_gi_prf_id = NVML_GPU_INSTANCE_PROFILE_1_SLICE_ALL_ME ∨
     dev_gi_prf_id = NVML_GPU_INSTANCE_PROFILE_2_SLICE_ALL_ME then "me.all"
  else if dev_gi_prf_id = NVML_GPU_INSTANCE_PROFILE_1_SLICE_GFX ∨
     dev_gi_prf_id = NVML_GPU_INSTANCE_PROFILE_2_SLICE_GFX ∨
     dev_gi_prf_id = NVML_GPU_INSTANCE_PROFILE_4_SLICE_GFX then "gfx"
  else ""

/-- `_get_gpu_instance_negative_attrs` (nvidia.py lines 375-392). -/
def _get_gpu_instance_negative_attrs (dev_gi_prf_id : ℕ) : String :=
  if dev_gi_prf_id = NVML_GPU_INSTANCE_PROFILE_1_SLICE_NO_ME ∨
     dev_gi_prf_id = NVML_GPU_INSTANCE_PROFILE_2_SLICE_NO_ME then "me"
  else ""

/-- `_get_compute_instance_slices` (nvidia.py lines 395-427). -/
def _get_compute_instance_slices (dev_ci_prf_id : ℕ) : Except PyErr ℕ :=
  if dev_ci_prf_id = NVML_COMPUTE_INSTANCE_PROFILE_1_SLICE ∨
     dev_ci_prf_id = NVML_COMPUTE_INSTANCE_PROFILE_1_SLICE_REV1 then .ok 1
  else if dev_ci_prf_id = NVML_COMPUTE_INSTANCE_PROFILE_2_SLICE then .ok 2
  else if dev_ci_prf_id = NVML_COMPUTE_INSTANCE_PROFILE_3_SLICE then .ok 3
  else if dev_ci_prf_id = NVML_COMPUTE_INSTANCE_PROFILE_4_SLICE then .ok 4
  else if dev_ci_prf_id = NVML_COMPUTE_INSTANCE_PROFILE_6_SLICE then .ok 6
  else if dev_ci_prf_id = NVML_COMPUTE_INSTANCE_PROFILE_7_SLICE then .ok 7
  else if dev_ci_prf_id = NVML_COMPUTE_INSTANCE_PROFILE_8_SLICE then .ok 8
  else .error .attributeError

/-- Computation of `mdev_name` and `mdev_cores` from a matched pair of
profile ids (nvidia.py lines 196-220): slice counts and attrs from the
tables, memory from `_get_compute_instance_memory_in_gib`, name
`{gi}g.{gib}gb` when GPU slices equal CI slices else `{ci}c.{gi}g.{gib}gb`,
with `+attrs` and `-negattrs` appended. -/
def mig_name_from_profiles (dev_gi_prf_id dev_ci_prf_id memorySizeMB totalB : ℕ) :
    Except PyErr (String × ℕ) := do
  let gi_slices ← _get_gpu_instance_slices dev_gi_prf_id
  let gi_attrs := _get_gpu_instance_attrs dev_gi_prf_id
  let gi_neg_attrs := _get_gpu_instance_negative_attrs dev_gi_prf_id
  let ci_slices ← _get_compute_instance_slices dev_ci_prf_id
  let ci_mem := _get_compute_instance_memory_in_gib memorySizeMB totalB
  let mdev_name := if gi_slices = ci_slices then s!"{gi_slices}g.{ci_mem}gb"
    else s!"{ci_slices}c.{gi_slices}g.{ci_mem}gb"
  let mdev_name := if !gi_attrs.isEmpty then mdev_name ++ "+" ++ gi_attrs
    else mdev_name
  let mdev_name := if !gi_neg_attrs.isEmpty then mdev_name ++ "-" ++ gi_neg_attrs
    else mdev_name
  .ok (mdev_name, ci_slices)

/-- The profile tables of one GPU, as `detect` queries them:
`giProfileId prf` is `nvmlDeviceGetGpuInstanceProfileInfo(dev, prf).id`
(`none` models an `NVMLError`), and `ciProfileId giId ciPrf cigPrf` is
`nvmlGpuInstanceGetComputeInstanceProfileInfo(gi, ciPrf, cigPrf).id` for the
GPU instance `giId`. -/
structure MigProfileEnv where
  giProfileId : ℕ → Option ℕ
  ciProfileId : ℕ → ℕ → ℕ → Option ℕ

/-- The innermost `for dev_cig_prf_id in range(...)` loop (nvidia.py lines
182-222): an `NVMLError` or a mismatched id continues; on a match the
name/cores state is recomputed and `break` leaves this loop only. -/
def mig_search_cig_loop (env : MigProfileEnv)
    (giId ciTarget dev_gi_prf_id dev_ci_prf_id memorySizeMB totalB : ℕ) :
    List ℕ → String × ℕ → Except PyErr (String × ℕ)
  | [], st => .ok st
  | cig :: rest, st =>
    match env.ciProfileId giId dev_ci_prf_id cig with
    | none => mig_search_cig_loop env giId ciTarget dev_gi_prf_id dev_ci_prf_id
        memorySizeMB totalB rest st
    | some pid =>
      if pid ≠ ciTarget then
        mig_search_cig_loop env giId ciTarget dev_gi_prf_id dev_ci_prf_id
          memorySizeMB totalB rest st
      else mig_name_from_profiles dev_gi_prf_id dev_ci_prf_id memorySizeMB totalB

/-- The `for dev_ci_prf_id in range(...)` loop (nvidia.py lines 179-222): no
`break` reaches this level, so it always continues to the next compute
profile with whatever state the inner loop produced. -/
def mig_search_ci_loop (env : MigProfileEnv)
    (giId ciTarget dev_gi_prf_id memorySizeMB totalB : ℕ) :
    List ℕ → String × ℕ → Except PyErr (String × ℕ)
  | [], st => .ok st
  | dev_ci_prf_id :: rest, st => do
    let st2 ← mig_search_cig_loop env giId ciTarget dev_gi_prf_id dev_ci_prf_id
      memorySizeMB totalB
      (List.range NVML_COMPUTE_INSTANCE_ENGINE_PROFILE_COUNT) st
    mig_search_ci_loop env giId ciTarget dev_gi_prf_id memorySizeMB totalB
      rest st2

/-- The `for dev_gi_prf_id in range(...)` loop (nvidia.py lines 166-222): an
`NVMLError` or a mismatched GPU-instance profile id continues; a match runs
the inner loops and the outer loop then continues as well (the `break` on
line 222 only leaves the innermost loop). -/
def mig_search_gi_loop (env : MigProfileEnv)
    (giId giTarget ciTarget memorySizeMB totalB : ℕ) :
    List ℕ → String × ℕ → Except PyErr (String × ℕ)
  | [], st => .ok st
  | dev_gi_prf_id :: rest, st =>
    match env.giProfileId dev_gi_prf_id with
    | none => mig_search_gi_loop env giId giTarget ciTarget memorySizeMB totalB
        rest st
    | some pid =>
      if pid ≠ giTarget then
        mig_search_gi_loop env giId giTarget ciTarget memorySizeMB totalB
          rest st
      else do
        let st2 ← mig_search_ci_loop env giId ciTarget dev_gi_prf_id
          memorySizeMB totalB (List.range NVML_COMPUTE_INSTANCE_PROFILE_COUNT)
          st
        mig_search_gi_loop env giId giTarget ciTarget memorySizeMB totalB
          rest st2

/-- The whole profile search run under `if not mdev_name:` (nvidia.py lines
156-222) for one MIG instance: `giTarget` is `mdev_gi_info.profileId`,
`ciTarget` is `mdev_ci_info.profileId`. -/
def mig_profile_search (env : MigProfileEnv)
    (giId giTarget ciTarget memorySizeMB totalB : ℕ) (st : String × ℕ) :
    Except PyErr (String × ℕ) :=
  mig_search_gi_loop env giId giTarget ciTarget memorySizeMB totalB
    (List.range NVML_GPU_INSTANCE_PROFILE_COUNT) st

/-- One enumerated MIG instance, as `detect` reads it: uuid,
`nvmlDeviceGetGpuInstanceId`, `nvmlDeviceGetComputeInstanceId`, the profile
ids from `nvmlGpuInstanceGetInfo`/`nvmlComputeInstanceGetInfo` and
`nvmlDeviceGetAttributes().memorySizeMB`. -/
structure MigInstance where
  uuid : String
  giId : ℕ
  ciId : ℕ
  giInfoProfileId : ℕ
  ciInfoProfileId : ℕ
  memorySizeMB : ℕ
  deriving Repr, DecidableEq

/-- The fields of an emitted MIG `Device` that the naming claims inspect
(name, cores, uuid, and the per-instance appendix ids). -/
structure MigDevice where
  name : String
  uuid : String
  cores : ℕ
  gpu_instance_id : ℕ
  compute_instance_id : ℕ
  deriving Repr, DecidableEq

/-- The `Device(...)` record appended for a MIG instance (nvidia.py lines
224-244), given the loop-carried `mdev_name`/`mdev_cores`. -/
def mk_mig_device (i : MigInstance) (mdev_name : String) (mdev_cores : ℕ) :
    MigDevice :=
  { name := mdev_name, uuid := i.uuid, cores := mdev_cores,
    gpu_instance_id := i.giId, compute_instance_id := i.ciId }

/-- The `for mdev_idx in range(mdev_count)` loop of `detect` (nvidia.py
lines 136-244): `mdev_name` and `mdev_cores` are initialised once *outside*
the loop (lines 136-137) and the profile search runs only under
`if not mdev_name:` (line 156); every instance is emitted with the
loop-carried values. -/
def detect_mig_devices_loop (env : MigProfileEnv) (totalB : ℕ) :
    List MigInstance → String → ℕ → Except PyErr (List MigDevice)
  | [], _, _ => .ok []
  | i :: rest, mdev_name, mdev_cores => do
    let st ←
      if mdev_name.isEmpty then
        mig_profile_search env i.giId i.giInfoProfileId i.ciInfoProfileId
          i.memorySizeMB totalB (mdev_name, mdev_cores)
      else .ok (mdev_name, mdev_cores)
    let ds ← detect_mig_devices_loop env totalB rest st.1 st.2
    .ok (mk_mig_device i st.1 st.2 :: ds)

/-- The MIG branch of `NVIDIADetector.detect` for one GPU with MIG enabled:
`totalB` is `dev_mem.total`, starting from `mdev_name = ""`,
`mdev_cores = 0`. -/
def detect_mig_devices (env : MigProfileEnv) (totalB : ℕ)
    (insts : List MigInstance) : Except PyErr (List MigDevice) :=
  detect_mig_devices_loop env totalB insts "" 0

/-- A GPU whose profile tables expose a 1-slice GPU-instance profile with id
10 (compute profile id 100) and a 2-slice one with id 20 (compute profile
id 200). -/
def c7Env : MigProfileEnv :=
  { giProfileId := fun prf =>
      if prf = 0 then some 10 else if prf = 1 then some 20 else none,
    ciProfileId := fun _ ciPrf cigPrf =>
      if ciPrf = 0 ∧ cigPrf = 0 then some 100
      else if ciPrf = 1 ∧ cigPrf = 0 then some 200 else none }

/-- A `1g` MIG instance (profiles 10/100, 4 GiB of a 32 GiB GPU). -/
def c7InstA : MigInstance :=
  { uuid := "MIG-A", giId := 1, ciId := 0, giInfoProfileId := 10,
    ciInfoProfileId := 100, memorySizeMB := 4096 }

/-- A `2g` MIG instance (profiles 20/200, 8 GiB of a 32 GiB GPU). -/
def c7InstB : MigInstance :=
  { uuid := "MIG-B", giId := 2, ciId := 0, giInfoProfileId := 20,
    ciInfoProfileId := 200, memorySizeMB := 8192 }

lemma except_bind_ok {e a b : Type} (x : a) (f : a → Except e b) :
    (Except.ok x : Except e a) >>= f = f x := rfl

lemma c7_mem_a : _get_compute_instance_memory_in_gib 4096 (2 ^ 35) = 4 := by
  unfold _get_compute_instance_memory_in_gib
  have hc : ⌈((4096 : ℕ) : ℚ) * 2 ^ 20 / ((2 ^ 35 : ℕ) : ℚ) * 8⌉ = 1 := by
    rw [Int.ceil_eq_iff]
    push_cast
    norm_num
  rw [hc]
  have harg : ((1 : ℤ) : ℚ) / 8 * ((((2 ^ 35 : ℕ) : ℚ) + 2 ^ 30 - 1) / 2 ^ 30) =
      35433480191 / 8589934592 := by
    push_cast
    norm_num
  rw [harg]
  refine pyRound_eq_of_fract_lt _ 4 ?_ (by norm_num)
  rw [Int.floor_eq_iff]
  norm_num

lemma c7_mem_b : _get_compute_instance_memory_in_gib 8192 (2 ^ 35) = 8 := by
  unfold _get_compute_instance_memory_in_gib
  have hc : ⌈((8192 : ℕ) : ℚ) * 2 ^ 20 / ((2 ^ 35 : ℕ) : ℚ) * 8⌉ = 2 := by
    rw [Int.ceil_eq_iff]
    push_cast
    norm_num
  rw [hc]
  have harg : ((2 : ℤ) : ℚ) / 8 * ((((2 ^ 35 : ℕ) : ℚ) + 2 ^ 30 - 1) / 2 ^ 30) =
      35433480191 / 4294967296 := by
    push_cast
    norm_num
  rw [harg]
  refine pyRound_eq_of_fract_lt _ 8 ?_ (by norm_num)
  rw [Int.floor_eq_iff]
  norm_num

lemma c7_name_a : mig_name_from_profiles 0 0 4096 (2 ^ 35) =
    .ok ("1g.4gb", 1) := by
  unfold mig_name_from_profiles
  rw [c7_mem_a]
  rfl

lemma c7_name_b : mig_name_from_profiles 1 1 8192 (2 ^ 35) =
    .ok ("2g.8gb", 2) := by
  unfold mig_name_from_profiles
  rw [c7_mem_b]
  rfl

lemma c7_searchA : mig_profile_search c7Env c7InstA.giId c7InstA.giInfoProfileId
    c7InstA.ciInfoProfileId c7InstA.memorySizeMB (2 ^ 35) ("", 0) =
    .ok ("1g.4gb", 1) := by
  have hr17 : List.range NVML_GPU_INSTANCE_PROFILE_COUNT =
      [0, 1, 2, 3, 4, 5, 6, 7, 8, 9, 10, 11, 12, 13, 14, 15, 16] := by decide
  have hr8 : List.range NVML_COMPUTE_INSTANCE_PROFILE_COUNT =
      [0, 1, 2, 3, 4, 5, 6, 7] := by decide
  have hr1 : List.range NVML_COMPUTE_INSTANCE_ENGINE_PROFILE_COUNT = [0] := by
    decide
  unfold mig_profile_search
  rw [hr17]
  simp only [mig_search_gi_loop, mig_search_ci_loop, mig_search_cig_loop,
    c7Env, hr8, hr1, c7_name_a, except_bind_ok, c7InstA]
  rfl

lemma c7_searchB : mig_profile_search c7Env c7InstB.giId c7InstB.giInfoProfileId
    c7InstB.ciInfoProfileId c7InstB.memorySizeMB (2 ^ 35) ("", 0) =
    .ok ("2g.8gb", 2) := by
  have hr17 : List.range NVML_GPU_INSTANCE_PROFILE_COUNT =
      [0, 1, 2, 3, 4, 5, 6, 7, 8, 9, 10, 11, 12, 13, 14, 15, 16] := by decide
  have hr8 : List.range NVML_COMPUTE_INSTANCE_PROFILE_COUNT =
      [0, 1, 2, 3, 4, 5, 6, 7] := by decide
  have hr1 : List.range NVML_COMPUTE_INSTANCE_ENGINE_PROFILE_COUNT = [0] := by
    decide
  unfold mig_profile_search
  rw [hr17]
  simp only [mig_search_gi_loop, mig_search_ci_loop, mig_search_cig_loop,
    c7Env, hr8, hr1, c7_name_b, except_bind_ok, c7InstB]
  rfl

lemma detect_mig_devices_loop_const (env : MigProfileEnv) (totalB : ℕ)
    (rest : List MigInstance) (mdev_name : String) (mdev_cores : ℕ)
    (hn : mdev_name.isEmpty = false) :
    detect_mig_devices_loop env totalB rest mdev_name mdev_cores =
      .ok (rest.map (fun i => mk_mig_device i mdev_name mdev_cores)) := by
  induction rest with
  | nil => rfl
  | cons i rest ih =>
    rw [detect_mig_devices_loop]
    simp [hn, ih, except_bind_ok]

lemma c7_detect : detect_mig_devices c7Env (2 ^ 35) [c7InstA, c7InstB] =
    .ok [mk_mig_device c7InstA "1g.4gb" 1, mk_mig_device c7InstB "1g.4gb" 1] := by
  unfold detect_mig_devices
  rw [detect_mig_devices_loop]
  rw [if_pos (show ("" : String).isEmpty = true from rfl)]
  simp only [c7_searchA, except_bind_ok]
  rw [detect_mig_devices_loop_const c7Env (2 ^ 35) [c7InstB] "1g.4gb" 1 rfl]
  rfl

/-- C7, counterexample.  On a 32 GiB GPU carrying a `1g.4gb` instance
followed by a `2g.8gb` instance, the second emitted device reuses the first
name `1g.4gb` and cores 1 of the first instance — the search over its own profiles,
which the claim says determines every device, would have produced
`2g.8gb`/2. -/
theorem c7_counterexample :
    detect_mig_devices c7Env (2 ^ 35) [c7InstA, c7InstB] =
      .ok [mk_mig_device c7InstA "1g.4gb" 1, mk_mig_device c7InstB "1g.4gb" 1] ∧
    mig_profile_search c7Env c7InstB.giId c7InstB.giInfoProfileId
      c7InstB.ciInfoProfileId c7InstB.memorySizeMB (2 ^ 35) ("", 0) =
      .ok ("2g.8gb", 2) ∧
    ("1g.4gb" : String) ≠ "2g.8gb" :=
  ⟨c7_detect, c7_searchB, by decide⟩

/-- C7, amended.  `detect` fetches the GPU-instance-id and
compute-instance-id of every MIG instance, but the profile-table search runs
only while `mdev_name` is still empty: once the search for the *first*
instance produces a non-empty name and its compute-slice cores, every
subsequent instance of the same GPU is emitted with that same name and cores
(its own uuid and instance ids), regardless of its own profiles. -/
theorem c7_amended (env : MigProfileEnv) (totalB : ℕ) (inst : MigInstance)
    (rest : List MigInstance) (mdev_name : String) (mdev_cores : ℕ)
    (hsearch : mig_profile_search env inst.giId inst.giInfoProfileId
      inst.ciInfoProfileId inst.memorySizeMB totalB ("", 0) =
      .ok (mdev_name, mdev_cores))
    (hn : mdev_name.isEmpty = false) :
    detect_mig_devices env totalB (inst :: rest) =
      .ok (mk_mig_device inst mdev_name mdev_cores ::
        rest.map (fun i => mk_mig_device i mdev_name mdev_cores)) := by
  unfold detect_mig_devices
  rw [detect_mig_devices_loop]
  rw [if_pos (show ("" : String).isEmpty = true from rfl)]
  simp only [hsearch, except_bind_ok]
  rw [detect_mig_devices_loop_const env totalB rest mdev_name mdev_cores hn]
  rfl

/-- Witness for `c7_amended`: the two-instance GPU of the counterexample,
with the first search returning `("1g.4gb", 1)`. -/
theorem c7_amended_witness :
    detect_mig_devices c7Env (2 ^ 35) [c7InstA, c7InstB] =
      .ok (mk_mig_device c7InstA "1g.4gb" 1 ::
        [c7InstB].map (fun i => mk_mig_device i "1g.4gb" 1)) :=
  c7_amended c7Env (2 ^ 35) c7InstA [c7InstB] "1g.4gb" 1 c7_searchA rfl

end GpustackRuntime
